import Mathlib

/-!
Verification of the overlay event-relay hub in `overlay/server.js`.

The JavaScript source is shallowly embedded: each JS function that a claim
touches becomes a Lean definition of the same name, global mutable state
becomes explicit state records, and the event handlers become pure step
functions on those records.  JS numbers that matter here are small integers
(delays in milliseconds) modelled as `Nat`/`Int`; the single floating-point
quantity (`Math.random()` jitter) is modelled as a rational parameter.
-/

namespace ObsTwitch

/-! ## Backoff timer (server.js lines 55-88)

`MAX_RECONNECT_DELAY = 60000`, `BASE_RECONNECT_DELAY = 1000`.
`getReconnectDelay(attempts)` returns
`min(BASE * 2^attempts, MAX) + Math.random() * delay * 0.25`.
The `Math.random()` draw is a parameter `j ∈ [0,1)`. -/

def MAX_RECONNECT_DELAY : ℕ := 60000

def BASE_RECONNECT_DELAY : ℕ := 1000

/-- Deterministic (jitter-free) component of `getReconnectDelay`:
`Math.min(BASE_RECONNECT_DELAY * Math.pow(2, attempts), MAX_RECONNECT_DELAY)`. -/
def reconnectDelayDet (attempts : ℕ) : ℕ :=
  min (BASE_RECONNECT_DELAY * 2 ^ attempts) MAX_RECONNECT_DELAY

/-- `getReconnectDelay(attempts)` with the `Math.random()` draw `j` made explicit:
`delay + j * delay * 0.25`. -/
def getReconnectDelay (attempts : ℕ) (j : ℚ) : ℚ :=
  (reconnectDelayDet attempts : ℚ) + j * (reconnectDelayDet attempts : ℚ) * (1/4)

/-- Per-connection reconnect state (`reconnectState[name]`): an attempts
counter and the pending `setTimeout` handle, modelled as the scheduled
delay when a timer is pending. -/
structure ReconnectSt where
  attempts : ℕ
  timeout : Option ℚ
deriving DecidableEq, Repr

/-- `scheduleReconnect(name, connectFn)` (lines 65-79): clear any pending
timer, compute the delay from the current `attempts`, increment `attempts`,
and store the new timer.  `j` is the jitter draw of this call. -/
def scheduleReconnect (j : ℚ) (st : ReconnectSt) : ReconnectSt :=
  let delay := getReconnectDelay st.attempts j
  { attempts := st.attempts + 1, timeout := some delay }

/-- `resetReconnectState(name)` (lines 81-88): zero the counter and clear the
pending timer.  Called from every connection's `open` handler. -/
def resetReconnectState (_st : ReconnectSt) : ReconnectSt :=
  { attempts := 0, timeout := none }

/-- Initial reconnect state (`{ attempts: 0, timeout: null }`). -/
def initialReconnectSt : ReconnectSt := { attempts := 0, timeout := none }

/-- `n` consecutive failed connects: each failure fires the `close` handler,
which calls `scheduleReconnect`.  Jitter draws are irrelevant to the
attempts counter; this uses draw `0` for each. -/
def schedulesFrom (st : ReconnectSt) : ℕ → ReconnectSt
  | 0 => st
  | n + 1 => scheduleReconnect 0 (schedulesFrom st n)

/-- C7: for every attempt count and every jitter draw `j ∈ [0,1)`, the delay
lies in `[base, cap × 1.25]` (hence is never zero or negative), and the
deterministic component `min(base·2^attempt, cap)` is monotone in the
attempt count. -/
theorem backoff_delay_bounds (attempt : ℕ) (j : ℚ) (h0 : 0 ≤ j) (h1 : j < 1) :
    (BASE_RECONNECT_DELAY : ℚ) ≤ getReconnectDelay attempt j ∧
    getReconnectDelay attempt j ≤ (MAX_RECONNECT_DELAY : ℚ) * (5/4) ∧
    0 < getReconnectDelay attempt j ∧
    (∀ a b : ℕ, a ≤ b → reconnectDelayDet a ≤ reconnectDelayDet b) := by
  have h2 : 1 ≤ 2 ^ attempt := Nat.one_le_two_pow
  have hdet_lb : BASE_RECONNECT_DELAY ≤ reconnectDelayDet attempt := by
    unfold reconnectDelayDet
    refine le_min ?_ (by norm_num [BASE_RECONNECT_DELAY, MAX_RECONNECT_DELAY])
    have := Nat.mul_le_mul_left BASE_RECONNECT_DELAY h2
    simpa using this
  have hdet_ub : reconnectDelayDet attempt ≤ MAX_RECONNECT_DELAY :=
    min_le_right _ _
  have hd1 : (1000 : ℚ) ≤ (reconnectDelayDet attempt : ℚ) := by
    exact_mod_cast hdet_lb
  have hd2 : (reconnectDelayDet attempt : ℚ) ≤ 60000 := by
    exact_mod_cast hdet_ub
  have hd0 : (0 : ℚ) ≤ (reconnectDelayDet attempt : ℚ) := by linarith
  have hjd : j * (reconnectDelayDet attempt : ℚ) ≤ (reconnectDelayDet attempt : ℚ) :=
    mul_le_of_le_one_left hd0 (le_of_lt h1)
  have hjd0 : 0 ≤ j * (reconnectDelayDet attempt : ℚ) := mul_nonneg h0 hd0
  refine ⟨?_, ?_, ?_, ?_⟩
  · show (BASE_RECONNECT_DELAY : ℚ) ≤ getReconnectDelay attempt j
    unfold getReconnectDelay BASE_RECONNECT_DELAY
    push_cast
    nlinarith
  · unfold getReconnectDelay MAX_RECONNECT_DELAY
    push_cast
    nlinarith
  · unfold getReconnectDelay
    nlinarith
  · intro a b hab
    unfold reconnectDelayDet
    exact min_le_min
      (Nat.mul_le_mul_left _ (Nat.pow_le_pow_right (by norm_num) hab)) le_rfl

/-- Witness for `backoff_delay_bounds` at attempt 2 with jitter draw 0. -/
theorem backoff_delay_bounds_witness :
    (0 : ℚ) ≤ 0 ∧ (0 : ℚ) < 1 ∧
    ((BASE_RECONNECT_DELAY : ℚ) ≤ getReconnectDelay 2 0 ∧
     getReconnectDelay 2 0 ≤ (MAX_RECONNECT_DELAY : ℚ) * (5/4) ∧
     0 < getReconnectDelay 2 0 ∧
     (∀ a b : ℕ, a ≤ b → reconnectDelayDet a ≤ reconnectDelayDet b)) :=
  ⟨le_refl 0, by norm_num, backoff_delay_bounds 2 0 (le_refl 0) (by norm_num)⟩

/-! ## JSON values

Subscriber messages and broadcast events are JS objects; `JSON.stringify`
and property access are modelled on this value type.  Object fields keep
insertion order; property access returns the last binding of a key, as JS
object literals do. -/

inductive Json where
  | str (s : String)
  | num (n : Int)
  | bool (b : Bool)
  | null
  | arr (elems : List Json)
  | obj (fields : List (String × Json))
deriving Repr

/-- `JSON.stringify` string escaping (only the characters our events can
contain: quote and backslash). -/
def escapeChars : List Char → List Char
  | [] => []
  | c :: cs =>
    (if c = '"' then ['\\', '"']
     else if c = '\\' then ['\\', '\\'] else [c]) ++ escapeChars cs

mutual

/-- `JSON.stringify(event)` (used once per broadcast, server.js line 500). -/
def Json.stringify : Json → String
  | .str s => "\"" ++ String.mk (escapeChars s.toList) ++ "\""
  | .num n => toString n
  | .bool b => if b then "true" else "false"
  | .null => "null"
  | .arr xs => "[" ++ Json.stringifyList xs ++ "]"
  | .obj fs => "\x7b" ++ Json.stringifyFields fs ++ "\x7d"

def Json.stringifyList : List Json → String
  | [] => ""
  | [x] => Json.stringify x
  | x :: xs => Json.stringify x ++ "," ++ Json.stringifyList xs

def Json.stringifyFields : List (String × Json) → String
  | [] => ""
  | [(k, v)] => "\"" ++ k ++ "\":" ++ Json.stringify v
  | (k, v) :: fs => "\"" ++ k ++ "\":" ++ Json.stringify v ++ "," ++ Json.stringifyFields fs

end

/-- JS property access `o.k`: `none` models `undefined` (also for non-object
receivers, where JS would yield `undefined` for our message shapes). -/
def Json.get : Json → String → Option Json
  | .obj fs, k => ((fs.reverse).find? (fun f => f.1 = k)).map (fun f => f.2)
  | _, _ => none

/-- JS truthiness of a value (`if (message.type)`). -/
def Json.truthy : Json → Bool
  | .str s => s ≠ ""
  | .num n => n ≠ 0
  | .bool b => b
  | .null => false
  | .arr _ => true
  | .obj _ => true

/-- Truthiness of a possibly-`undefined` value. -/
def jsTruthy : Option Json → Bool
  | none => false
  | some v => v.truthy

/-- JS strict equality `v === 'lit'` between a possibly-`undefined` value
and a string literal: true exactly when the value is that string. -/
def jsStrictEqStr : Option Json → String → Bool
  | some (Json.str s), t => s == t
  | _, _ => false

mutual

/-- JS string coercion of a value, as in a template literal. -/
def jsDisplayJson : Json → String
  | .str s => s
  | .num n => toString n
  | .bool b => if b then "true" else "false"
  | .null => "null"
  | .arr xs => jsDisplayList xs
  | .obj _ => "[object Object]"

/-- Array-to-string: elements joined by commas; `null` elements display
empty, per JS `Array.prototype.toString`. -/
def jsDisplayList : List Json → String
  | [] => ""
  | [Json.null] => ""
  | [x] => jsDisplayJson x
  | Json.null :: xs => "," ++ jsDisplayList xs
  | x :: xs => jsDisplayJson x ++ "," ++ jsDisplayList xs

end

/-- JS string coercion of `message.message` in `${message}` position:
`undefined` displays as "undefined". -/
def jsDisplay : Option Json → String
  | none => "undefined"
  | some v => jsDisplayJson v

/-! ## Broadcast hub state (server.js lines 40-46, 480-509, 554-599) -/

/-- `ws` readyState constants. -/
inductive RS where
  | CONNECTING
  | OPEN
  | CLOSING
  | CLOSED
deriving DecidableEq, Repr

/-- One downstream subscriber connection in `overlayClients`. -/
structure Client where
  id : ℕ
  readyState : RS
deriving DecidableEq, Repr

/-- The hub's mutable module state: the subscriber set plus the two
outbound chat socket handles (`botSocket`, `chatSocket`); `none` models a
null handle, `some rs` a socket whose `readyState` is `rs`. -/
structure HubState where
  overlayClients : List Client
  botSocket : Option RS
  chatSocket : Option RS
deriving DecidableEq, Repr

/-- `broadcastToOverlays(event)` (lines 499-509): serialize once, send the
payload to every client whose `readyState` is `OPEN`, and leave
`overlayClients` untouched.  Returns the (unchanged) state and the list of
`(client id, payload)` sends performed. -/
def broadcastToOverlays (st : HubState) (event : Json) : HubState × List (ℕ × String) :=
  let payload := event.stringify
  (st, st.overlayClients.filterMap (fun c =>
    if c.readyState = RS.OPEN then some (c.id, payload) else none))

/-- Which authenticated identity a chat write goes through. -/
inductive ChatIdentity where
  | bot
  | main
deriving DecidableEq, Repr

def USERNAME : String := "devopsphilosopher"

/-- ASCII lower-casing of one character (JS `toLowerCase` on the ASCII
account names used here). -/
def lowerChar (c : Char) : Char :=
  if 'A' ≤ c ∧ c ≤ 'Z' then Char.ofNat (c.toNat + 32) else c

/-- `s.toLowerCase()` for ASCII strings. -/
def toLowerStr (s : String) : String := String.mk (s.toList.map lowerChar)

/-- `sendToTwitchChat(message)` (lines 480-493): prefer `botSocket` when it
is open, else fall back to `chatSocket`; if the selected socket is null or
not open, return `false` with no write, else write the PRIVMSG line and
return `true`. -/
def sendToTwitchChat (st : HubState) (message : String) :
    Bool × List (ChatIdentity × String) :=
  let socket : Option (ChatIdentity × RS) :=
    if st.botSocket = some RS.OPEN then some (ChatIdentity.bot, RS.OPEN)
    else st.chatSocket.map (fun rs => (ChatIdentity.main, rs))
  match socket with
  | none => (false, [])
  | some (who, rs) =>
    if rs = RS.OPEN then
      (true, [(who, "PRIVMSG #" ++ toLowerStr USERNAME ++ " :" ++ message)])
    else (false, [])

/-- Result of the hub's per-subscriber message handler: the hub state, the
broadcast sends performed, and the `sendToTwitchChat` result when that path
was taken (`none` when it was not invoked). -/
structure ClientMsgResult where
  state : HubState
  broadcasts : List (ℕ × String)
  outbound : Option (Bool × List (ChatIdentity × String))
deriving DecidableEq, Repr

/-- The `ws.on('message')` handler of the local serving socket
(lines 572-589), after `JSON.parse` succeeded: a `type === 'send'` message
is routed to `sendToTwitchChat(message.message)` and returns before any
broadcast; otherwise a message with a truthy `type` that is not
`'connected'` is broadcast verbatim via `broadcastToOverlays`; anything
else is ignored. -/
def handleClientMessage (st : HubState) (message : Json) : ClientMsgResult :=
  if jsStrictEqStr (message.get "type") "send" then
    { state := st, broadcasts := [],
      outbound := some (sendToTwitchChat st (jsDisplay (message.get "message"))) }
  else if jsTruthy (message.get "type") &&
          !(jsStrictEqStr (message.get "type") "connected") then
    let r := broadcastToOverlays st message
    { state := r.1, broadcasts := r.2, outbound := none }
  else
    { state := st, broadcasts := [], outbound := none }

/-! ## IRC line parser (server.js lines 401-474)

`parseIRCMessage(raw)` uses two regexes: `/^@([^ ]+)/` for the tag block
and `/:([^!]+)![^@]+@[^ ]+ PRIVMSG #[^ ]+ :(.+)/` for the message body.
In the body regex every character class excludes the literal character
that follows it, so JS's greedy backtracking semantics are deterministic:
each `[^x]+` matches exactly up to the first `x`.  The engine still scans
start positions left to right, which `matchPrivmsg` reproduces. -/

/-- Is `pre` a prefix of `xs`? -/
def listStartsWith : List Char → List Char → Bool
  | [], _ => true
  | _ :: _, [] => false
  | p :: ps, x :: xs => p = x && listStartsWith ps xs

/-- Does `xs` contain `needle` as a contiguous substring
(JS `String.prototype.includes`)? -/
def containsSub (needle : List Char) : List Char → Bool
  | [] => needle.isEmpty
  | x :: xs => listStartsWith needle (x :: xs) || containsSub needle xs

/-- Split at the first occurrence of `c`: `(before, after)` with `c`
removed, or `none` when `c` does not occur. -/
def breakAtChar (c : Char) : List Char → Option (List Char × List Char)
  | [] => none
  | x :: xs =>
    if x = c then some ([], xs)
    else (breakAtChar c xs).map (fun r => (x :: r.1, r.2))

/-- JS `String.prototype.split` on a one-character separator:
`"".split(c)` is `[""]`, separators at the ends produce empty pieces. -/
def splitOnChar (c : Char) : List Char → List (List Char)
  | [] => [[]]
  | x :: xs =>
    let r := splitOnChar c xs
    if x = c then [] :: r
    else
      match r with
      | [] => [[x]]
      | y :: ys => (x :: y) :: ys

/-- One attempt of the body regex at a fixed start position.  Returns the
two capture groups (sender prefix, payload). -/
def matchPrivmsgAt : List Char → Option (List Char × List Char)
  | ':' :: rest =>
    match breakAtChar '!' rest with
    | none => none
    | some (u, r1) =>
      if u.isEmpty then none
      else
        match breakAtChar '@' r1 with
        | none => none
        | some (m, r2) =>
          if m.isEmpty then none
          else
            let host := r2.takeWhile (fun c => c ≠ ' ')
            if host.isEmpty then none
            else
              let r3 := r2.drop host.length
              if listStartsWith " PRIVMSG #".toList r3 then
                let r4 := r3.drop 10
                let chan := r4.takeWhile (fun c => c ≠ ' ')
                if chan.isEmpty then none
                else
                  let r5 := r4.drop chan.length
                  if listStartsWith " :".toList r5 then
                    let payload := (r5.drop 2).takeWhile
                      (fun c => c ≠ '\n' && c ≠ '\r')
                    if payload.isEmpty then none else some (u, payload)
                  else none
              else none
  | _ => none

/-- `raw.match(/:([^!]+)![^@]+@[^ ]+ PRIVMSG #[^ ]+ :(.+)/)`: leftmost
start position at which the body regex matches. -/
def matchPrivmsg : List Char → Option (List Char × List Char)
  | [] => none
  | x :: xs =>
    match matchPrivmsgAt (x :: xs) with
    | some r => some r
    | none => matchPrivmsg xs

/-- `raw.match(/^@([^ ]+)/)` followed by `split(';')` and `split('=')`
(lines 409-420): tag assignments in order; a tag without `=` maps its key
to `undefined` (`none`). -/
def parseTags : List Char → List (List Char × Option (List Char))
  | '@' :: rest =>
    let tagStr := rest.takeWhile (fun c => c ≠ ' ')
    if tagStr.isEmpty then []
    else
      (splitOnChar ';' tagStr).map (fun t =>
        match splitOnChar '=' t with
        | [] => (t, none)
        | [k] => (k, none)
        | k :: v :: _ => (k, some v))
  | _ => []

/-- JS object lookup on the tag assignments (`tags[key]`): the last
assignment of a key wins; an absent key, or one assigned `undefined`, is
`none`. -/
def tagsGet (tags : List (List Char × Option (List Char))) (k : List Char) :
    Option (List Char) :=
  ((tags.reverse).find? (fun t => t.1 = k)).bind (fun t => t.2)

/-- JS truthiness of a tag value (`if (tags['badges'])`): defined and
nonempty. -/
def tagTruthy : Option (List Char) → Bool
  | none => false
  | some s => !s.isEmpty

/-- Badge extraction (lines 431-440): comma-split, `startsWith` chain,
unrecognized tokens dropped. -/
def parseBadges (v : List Char) : List String :=
  (splitOnChar ',' v).filterMap (fun badge =>
    if listStartsWith "broadcaster".toList badge then some "broadcaster"
    else if listStartsWith "moderator".toList badge then some "moderator"
    else if listStartsWith "vip".toList badge then some "vip"
    else if listStartsWith "subscriber".toList badge then some "subscriber"
    else none)

def digitsToNat (ds : List Char) : ℕ :=
  ds.foldl (fun acc c => acc * 10 + (c.toNat - 48)) 0

/-- JS `Number(s)` on the offset strings of the emote tag: empty string is
0, a (possibly negated) digit string is that integer, anything else — and
`Number(undefined)` — is NaN, collapsed here with `undefined` into `none`. -/
def jsNumber : Option (List Char) → Option Int
  | none => none
  | some s =>
    if s.isEmpty then some 0
    else
      match s with
      | '-' :: ds =>
        if !ds.isEmpty && ds.all Char.isDigit then some (-(digitsToNat ds : Int))
        else none
      | ds => if ds.all Char.isDigit then some (digitsToNat ds) else none

/-- One emote occurrence `{id, start, end}` (the JS field `end` is named
`stop` here; `none` offsets model NaN/undefined). -/
structure EmotePos where
  id : String
  start : Option Int
  stop : Option Int
deriving DecidableEq, Repr

/-- One `id:start-end,start-end` group of the emotes tag (lines 446-455):
`group.split(':')` destructured to id and positions, both required truthy,
then one `EmotePos` per comma-separated range. -/
def parseEmoteGroup (group : List Char) : List EmotePos :=
  match splitOnChar ':' group with
  | k :: positions :: _ =>
    if !k.isEmpty && !positions.isEmpty then
      (splitOnChar ',' positions).map (fun pos =>
        let parts := splitOnChar '-' pos
        { id := String.mk k,
          start := jsNumber (parts.get? 0),
          stop := jsNumber (parts.get? 1) })
    else []
  | _ => []

/-- Stable insertion for `emotes.sort((a, b) => b.start - a.start)`:
descending by start, order preserved on ties and on NaN comparisons. -/
def insertEmoteDesc (e : EmotePos) : List EmotePos → List EmotePos
  | [] => [e]
  | x :: xs =>
    match e.start, x.start with
    | some a, some b =>
      if a < b then x :: insertEmoteDesc e xs else e :: x :: xs
    | _, _ => e :: x :: xs

/-- `emotes.sort((a, b) => b.start - a.start)` (line 457) as a stable sort. -/
def sortEmotesDesc : List EmotePos → List EmotePos
  | [] => []
  | x :: xs => insertEmoteDesc x (sortEmotesDesc xs)

/-- JS whitespace tested by `String.prototype.trim` (the subset occurring
in IRC lines). -/
def isJsSpace (c : Char) : Bool :=
  c = ' ' || c = '\t' || c = '\n' || c = '\r'

def trimChars (cs : List Char) : List Char :=
  ((cs.dropWhile isJsSpace).reverse.dropWhile isJsSpace).reverse

/-- The structured chat record returned by `parseIRCMessage`
(lines 461-469); `timestamp` carries the `new Date().toISOString()` value
passed in as `now`. -/
structure ChatRecord where
  type : String
  username : String
  message : String
  color : Option String
  badges : List String
  emotes : List EmotePos
  timestamp : String
deriving DecidableEq, Repr

/-- `parseIRCMessage(raw)` (lines 401-474).  The function's own try/catch
cannot fire in this total model; the `null` of a failed message-shape
match is the `none` branch. -/
def parseIRCMessage (raw : String) (now : String) : Option ChatRecord :=
  let cs := raw.toList
  let tags := parseTags cs
  match matchPrivmsg cs with
  | none => none
  | some (senderRaw, msgRaw) =>
    let displayName := tagsGet tags "display-name".toList
    let username :=
      if tagTruthy displayName then
        String.mk (displayName.getD [])
      else String.mk senderRaw
    let message := String.mk (trimChars msgRaw)
    let colorTag := tagsGet tags "color".toList
    let color :=
      if tagTruthy colorTag then some (String.mk (colorTag.getD [])) else none
    let badgesTag := tagsGet tags "badges".toList
    let badges :=
      if tagTruthy badgesTag then parseBadges (badgesTag.getD []) else []
    let emotesTag := tagsGet tags "emotes".toList
    let emotes :=
      if tagTruthy emotesTag then
        sortEmotesDesc
          (((splitOnChar '/' (emotesTag.getD [])).map parseEmoteGroup).flatten)
      else []
    some { type := "chat", username := username, message := message,
           color := color, badges := badges, emotes := emotes,
           timestamp := now }

/-- Effects of one invocation of the chat socket's `ws.on('message')`
handler (lines 312-333): socket replies written, parsed chat events handed
to `broadcastToOverlays`, and whether the handler closed the connection
(it has no code path that does). -/
structure ChatMsgEffects where
  writes : List String
  broadcastEvents : List ChatRecord
  connectionClosed : Bool
deriving DecidableEq, Repr

/-- The chat connection's message handler: PING lines are answered with a
PONG and nothing else; lines containing "PRIVMSG" are parsed, a non-`null`
result is broadcast; everything else is ignored.  All branches leave the
connection open. -/
def chatMessageHandler (raw : String) (now : String) : ChatMsgEffects :=
  if listStartsWith "PING".toList raw.toList then
    { writes := ["PONG :tmi.twitch.tv"], broadcastEvents := [],
      connectionClosed := false }
  else if containsSub "PRIVMSG".toList raw.toList then
    match parseIRCMessage raw now with
    | some ev =>
      { writes := [], broadcastEvents := [ev], connectionClosed := false }
    | none =>
      { writes := [], broadcastEvents := [], connectionClosed := false }
  else
    { writes := [], broadcastEvents := [], connectionClosed := false }

/-! ## Concrete hub states and events used by examples -/

def hubThreeSubs : HubState :=
  { overlayClients := [⟨1, RS.OPEN⟩, ⟨2, RS.CLOSED⟩, ⟨3, RS.OPEN⟩],
    botSocket := none, chatSocket := none }

def hubSenderPair : HubState :=
  { overlayClients := [⟨1, RS.OPEN⟩, ⟨2, RS.OPEN⟩],
    botSocket := none, chatSocket := none }

def hubChatOnly : HubState :=
  { overlayClients := [], botSocket := some RS.CLOSED, chatSocket := some RS.OPEN }

def hubNoChat : HubState :=
  { overlayClients := [], botSocket := none, chatSocket := none }

def followEvent : Json :=
  Json.obj [("type", Json.str "follow"), ("username", Json.str "Ada")]

def connectedTypeMsg : Json := Json.obj [("type", Json.str "connected")]

def sendMsg : Json :=
  Json.obj [("type", Json.str "send"), ("message", Json.str "hi")]

/-- A `(client id, payload)` pair is among the sends of a broadcast exactly
when the payload is the serialized event and some open client of the hub
has that id.  Shared between the broadcast and routing theorems. -/
theorem mem_broadcast_sends (st : HubState) (ev : Json) (i : ℕ) (p : String) :
    (i, p) ∈ (broadcastToOverlays st ev).2 ↔
      p = ev.stringify ∧
        ∃ c, c ∈ st.overlayClients ∧ c.id = i ∧ c.readyState = RS.OPEN := by
  simp only [broadcastToOverlays, List.mem_filterMap]
  constructor
  · rintro ⟨c, hc, hf⟩
    by_cases h : c.readyState = RS.OPEN
    · simp only [h, if_pos] at hf
      have hf' := Option.some.inj hf
      exact ⟨(Prod.ext_iff.mp hf').2.symm, c, hc, (Prod.ext_iff.mp hf').1, h⟩
    · simp [h] at hf
  · rintro ⟨hp, c, hc, hi, h⟩
    exact ⟨c, hc, by simp [h, hi, hp]⟩

/-- C1 (amended): `broadcastToOverlays` delivers the serialized event to
exactly the subscribers whose connection is open, is total (never throws),
and leaves the subscriber set unchanged — closed subscribers are skipped
but NOT removed by the broadcast (removal happens only in the per-socket
close handler). -/
theorem broadcast_delivers_open_keeps_set (st : HubState) (ev : Json) :
    (broadcastToOverlays st ev).1 = st ∧
    (∀ i p, (i, p) ∈ (broadcastToOverlays st ev).2 ↔
      p = ev.stringify ∧
        ∃ c, c ∈ st.overlayClients ∧ c.id = i ∧ c.readyState = RS.OPEN) :=
  ⟨rfl, fun i p => mem_broadcast_sends st ev i p⟩

/-- C1 counterexample: broadcasting to subscribers 1 (open), 2 (closed),
3 (open) does not remove the closed subscriber 2 — after the broadcast the
live set still contains a subscriber that was not open, refuting "the
broadcast ... removes each closed subscriber from the live subscriber set". -/
theorem broadcast_no_removal_counterexample :
    ¬ (∀ c ∈ (broadcastToOverlays hubThreeSubs followEvent).1.overlayClients,
        c.readyState = RS.OPEN) := by
  intro h
  exact absurd (h ⟨2, RS.CLOSED⟩ (by simp [broadcastToOverlays, hubThreeSubs]))
    (by simp)

/-- C2 (amended): a subscriber message with `type === 'send'` is routed to
`sendToTwitchChat` and nothing is broadcast; a message with a truthy type
other than `'connected'` is broadcast verbatim to ALL open subscribers —
including the subscriber that sent it, since the broadcast loop does not
exclude the sender; a message whose type is `'connected'`, falsy or absent
is neither routed nor broadcast. -/
theorem client_message_routing (st : HubState) (msg : Json) :
    (jsStrictEqStr (msg.get "type") "send" = true →
      (handleClientMessage st msg).broadcasts = [] ∧
      (handleClientMessage st msg).outbound =
        some (sendToTwitchChat st (jsDisplay (msg.get "message")))) ∧
    (jsStrictEqStr (msg.get "type") "send" = false →
     jsTruthy (msg.get "type") = true →
     jsStrictEqStr (msg.get "type") "connected" = false →
      (handleClientMessage st msg).outbound = none ∧
      (handleClientMessage st msg).state = st ∧
      (∀ i p, (i, p) ∈ (handleClientMessage st msg).broadcasts ↔
        p = msg.stringify ∧
          ∃ c, c ∈ st.overlayClients ∧ c.id = i ∧ c.readyState = RS.OPEN)) ∧
    ((jsTruthy (msg.get "type") = false ∨
      jsStrictEqStr (msg.get "type") "connected" = true) →
      (handleClientMessage st msg).broadcasts = [] ∧
      (handleClientMessage st msg).outbound = none) := by
  refine ⟨?_, ?_, ?_⟩
  · intro hsend
    simp [handleClientMessage, hsend]
  · intro hns ht hnc
    have hmsg : handleClientMessage st msg =
        { state := (broadcastToOverlays st msg).1,
          broadcasts := (broadcastToOverlays st msg).2, outbound := none } := by
      unfold handleClientMessage
      rw [hns, ht, hnc]
      simp
    rw [hmsg]
    exact ⟨rfl, rfl, fun i p => mem_broadcast_sends st msg i p⟩
  · intro hor
    unfold handleClientMessage
    rcases hor with h | h
    · have hns : jsStrictEqStr (msg.get "type") "send" = false := by
        cases hmsg : msg.get "type" with
        | none => rfl
        | some v =>
          cases v with
          | str s =>
            by_cases hs : s = "send"
            · exfalso
              rw [hmsg] at h
              simp [jsTruthy, Json.truthy, hs] at h
            · simp [jsStrictEqStr, hs]
          | num n => rfl
          | bool b => rfl
          | null => rfl
          | arr xs => rfl
          | obj fs => rfl
      simp [hns, h]
    · have hns : jsStrictEqStr (msg.get "type") "send" = false := by
        cases hmsg : msg.get "type" with
        | none => rfl
        | some v =>
          cases v with
          | str s =>
            rw [hmsg] at h
            simp only [jsStrictEqStr, beq_iff_eq] at h
            subst h
            rfl
          | num n => rfl
          | bool b => rfl
          | null => rfl
          | arr xs => rfl
          | obj fs => rfl
      simp [hns, h]

/-- Witness for `client_message_routing`: the concrete message
`(type "send", message "hi")` against a hub with no open chat sockets
is routed outbound (yielding a failed send) and broadcasts nothing. -/
theorem client_message_routing_witness :
    (handleClientMessage hubNoChat sendMsg).broadcasts = [] ∧
    (handleClientMessage hubNoChat sendMsg).outbound =
      some (sendToTwitchChat hubNoChat (jsDisplay (sendMsg.get "message"))) :=
  (client_message_routing hubNoChat sendMsg).1 rfl

/-- C2 counterexample: subscriber 1 (open) sends `(type "follow" ...)`;
the broadcast goes to both open subscribers, including sender 1 itself —
refuting "broadcast ... to every live subscriber except the one that sent
it"; moreover `(type "connected")` has a type field yet is not broadcast
at all. -/
theorem client_message_counterexample :
    (handleClientMessage hubSenderPair followEvent).broadcasts =
      [(1, followEvent.stringify), (2, followEvent.stringify)] ∧
    (handleClientMessage hubSenderPair connectedTypeMsg).broadcasts = [] :=
  ⟨rfl, rfl⟩

/-- C5: the outbound send prefers the chat-sender (bot) socket when it is
open; otherwise it falls back to the chat-reader socket when that is open;
otherwise it returns failure with no socket write.  The function is total
(never throws) and always returns a boolean result. -/
theorem send_fallback_policy (st : HubState) (message : String) :
    (st.botSocket = some RS.OPEN →
      sendToTwitchChat st message =
        (true, [(ChatIdentity.bot, "PRIVMSG #" ++ toLowerStr USERNAME ++ " :" ++ message)])) ∧
    (st.botSocket ≠ some RS.OPEN → st.chatSocket = some RS.OPEN →
      sendToTwitchChat st message =
        (true, [(ChatIdentity.main, "PRIVMSG #" ++ toLowerStr USERNAME ++ " :" ++ message)])) ∧
    (st.botSocket ≠ some RS.OPEN → st.chatSocket ≠ some RS.OPEN →
      sendToTwitchChat st message = (false, [])) := by
  refine ⟨?_, ?_, ?_⟩
  · intro hb
    simp [sendToTwitchChat, hb]
  · intro hb hc
    simp [sendToTwitchChat, hb, hc]
  · intro hb hc
    unfold sendToTwitchChat
    simp only [hb, if_neg, if_false]
    cases hcs : st.chatSocket with
    | none => simp
    | some rs =>
      have : rs ≠ RS.OPEN := by
        intro h
        exact hc (by rw [hcs, h])
      simp [hb, this]

/-- Witness for `send_fallback_policy`: with only the chat-reader open the
send succeeds through it; with neither socket open it fails with no write. -/
theorem send_fallback_policy_witness :
    sendToTwitchChat hubChatOnly "hello" =
      (true, [(ChatIdentity.main, "PRIVMSG #devopsphilosopher :hello")]) ∧
    sendToTwitchChat hubNoChat "hello" = (false, []) := by
  constructor
  · have h := (send_fallback_policy hubChatOnly "hello").2.1
      (by simp [hubChatOnly]) rfl
    rw [h]
    rfl
  · exact (send_fallback_policy hubNoChat "hello").2.2 (by simp [hubNoChat])
      (by simp [hubNoChat])

/-! ## EventSub (push channel) connection manager (server.js lines 169-230) -/

/-- State owned by the EventSub connection: its reconnect state and the
`twitchConnected` flag. -/
structure TwitchConnSt where
  reconnect : ReconnectSt
  twitchConnected : Bool
deriving DecidableEq, Repr

/-- The `session_reconnect` case of the message handler (lines 204-209):
`ws.close()` and `setTimeout(connectToTwitch, 1000)`.  Returns the state
(untouched by this case) and the fixed-delay connect timers registered. -/
def sessionReconnectCase (st : TwitchConnSt) : TwitchConnSt × List ℕ :=
  (st, [1000])

/-- The EventSub socket's `close` handler (lines 220-224): clear
`twitchConnected` and schedule a backoff reconnect. -/
def twitchCloseHandler (j : ℚ) (st : TwitchConnSt) : TwitchConnSt :=
  { twitchConnected := false, reconnect := scheduleReconnect j st.reconnect }

/-- Observable effect of a server-directed `session_reconnect` directive:
the case handler runs, and because it called `ws.close()` the socket's
`close` event then fires, running the close handler.  `j` is the jitter
draw of the backoff computation. -/
def sessionReconnectObserved (j : ℚ) (st : TwitchConnSt) : TwitchConnSt × List ℕ :=
  let r := sessionReconnectCase st
  (twitchCloseHandler j r.1, r.2)

def twitchInit : TwitchConnSt :=
  { reconnect := initialReconnectSt, twitchConnected := true }

/-! ## `twitchConnected` flag lifecycle (server.js lines 132-163, 180-183,
220-224, 561-569) -/

/-- Lifecycle events of the EventSub connection that can touch the
`twitchConnected` flag.  `subscribeResults` carries the per-category
success booleans collected by `subscribeToAllEvents`. -/
inductive PushEvent where
  | sockOpen
  | subscribeResults (results : List Bool)
  | sockClose
  | keepalive
deriving DecidableEq, Repr

/-- Effect of one lifecycle event on `twitchConnected`: the `open` handler
only resets reconnect state and does not touch the flag (lines 180-183);
`subscribeToAllEvents` sets it exactly when at least one category
subscription succeeded (lines 151-162); the `close` handler clears it
(line 222); keepalives change nothing (line 197). -/
def twitchConnectedStep (connected : Bool) : PushEvent → Bool
  | .sockOpen => connected
  | .subscribeResults rs => if 0 < rs.count true then true else connected
  | .sockClose => false
  | .keepalive => connected

/-- The flag after a sequence of lifecycle events from process start
(initially `false`, line 42). -/
def twitchConnectedAfter (evs : List PushEvent) : Bool :=
  evs.foldl twitchConnectedStep false

/-- The welcome (`ConnectedAck`) object sent to each newly connected
subscriber (lines 565-569), carrying the current flag. -/
def welcomeAck (twitchConnected : Bool) : Json :=
  Json.obj [("type", Json.str "connected"),
            ("message", Json.str "Welcome to overlay server"),
            ("twitchConnected", Json.bool twitchConnected)]

/-- An event sequence with no successful category subscription. -/
def noSubscribeSuccess : PushEvent → Bool
  | .subscribeResults rs => rs.count true = 0
  | _ => true

/-! ## Startup (server.js lines 27-33, 345-349, 605-616, 648-697) -/

/-- Startup environment: the credentials of the three connection
identities.  `none` models an unset variable; `some ""` an empty one
(both falsy in JS). -/
structure Env where
  clientId : Option String
  accessToken : Option String
  botAccessToken : Option String
deriving DecidableEq, Repr

/-- JS truthiness of an environment variable. -/
def truthyEnv : Option String → Bool
  | none => false
  | some s => s ≠ ""

/-- `getBroadcasterIdWithRetry(maxAttempts)` (lines 605-616): attempt
numbers count up from `attempt`; a failed attempt other than the last
sleeps `1000 * attempt` ms.  `result n` is the outcome of the API call on
attempt `n`.  Returns the resolved id (or `none` when every attempt
failed) together with the backoff delays slept. -/
def getBroadcasterIdWithRetry (result : ℕ → Option String) :
    ℕ → ℕ → Option String × List ℕ
  | 0, _ => (none, [])
  | remaining + 1, attempt =>
    match result attempt with
    | some id => (some id, [])
    | none =>
      if remaining = 0 then (none, [])
      else
        let r := getBroadcasterIdWithRetry result remaining (attempt + 1)
        (r.1, 1000 * attempt :: r.2)

/-- How `main()` terminates its startup sequence. -/
inductive StartupOutcome where
  | exitNoCredentials
  | exitUnresolvedAccount (delaysSlept : List ℕ)
  | serving (broadcasterId : String) (botSocketOpened : Bool)
deriving DecidableEq, Repr

/-- `main()`'s startup sequence (lines 670-697): missing `TWITCH_CLIENT_ID`
or `TWITCH_ACCESS_TOKEN` exits with code 1 before any socket or server is
opened; broadcaster-id resolution runs with 3 attempts and linear backoff,
exiting on total failure; only then are the local server and the three
upstream connections started, and `connectBot` (lines 345-349) skips its
socket entirely when `BOT_ACCESS_TOKEN` is absent. -/
def mainStartup (env : Env) (result : ℕ → Option String) : StartupOutcome :=
  if !truthyEnv env.clientId || !truthyEnv env.accessToken then
    StartupOutcome.exitNoCredentials
  else
    let r := getBroadcasterIdWithRetry result 3 1
    match r.1 with
    | none => StartupOutcome.exitUnresolvedAccount r.2
    | some id => StartupOutcome.serving id (truthyEnv env.botAccessToken)

def envNoBot : Env :=
  { clientId := some "cid", accessToken := some "tok", botAccessToken := none }

def envMissingClient : Env :=
  { clientId := none, accessToken := some "tok", botAccessToken := some "bot" }

/-- C8: `scheduleReconnect` increments the attempts counter by exactly 1 and
`resetReconnectState` (run on successful connection open, i.e. on reaching
Ready) resets it to 0; after 3 consecutive failed connects the counter is 3,
and the 4th scheduled delay's deterministic component is strictly greater
than the 1st's. -/
theorem reconnect_attempts_invariant (st : ReconnectSt) (j : ℚ) :
    (scheduleReconnect j st).attempts = st.attempts + 1 ∧
    (resetReconnectState st).attempts = 0 ∧
    (schedulesFrom initialReconnectSt 3).attempts = 3 ∧
    reconnectDelayDet ((schedulesFrom initialReconnectSt 3).attempts) >
      reconnectDelayDet initialReconnectSt.attempts := by
  refine ⟨rfl, rfl, rfl, ?_⟩
  show reconnectDelayDet 3 > reconnectDelayDet 0
  decide

/-- C3 (amended): on a server-directed `session_reconnect` the code closes
the socket and registers a fixed 1-second connect timer; but the
`ws.close()` makes the socket's `close` handler fire, which clears the
connected flag, schedules an additional backoff reconnect timer and
increments the attempts counter by 1 — `ReconnectScheduled` is NOT
bypassed. -/
theorem session_reconnect_schedules_backoff (st : TwitchConnSt) (j : ℚ) :
    (sessionReconnectObserved j st).2 = [1000] ∧
    (sessionReconnectObserved j st).1.reconnect.attempts =
      st.reconnect.attempts + 1 ∧
    (sessionReconnectObserved j st).1.reconnect.timeout =
      some (getReconnectDelay st.reconnect.attempts j) ∧
    (sessionReconnectObserved j st).1.twitchConnected = false :=
  ⟨rfl, rfl, rfl, rfl⟩

/-- C3 counterexample: from a freshly connected state (attempts = 0, no
pending timer), handling the reconnect directive leaves the attempts
counter incremented and a backoff timer scheduled — refuting "no backoff
timer is scheduled and the attempts counter is not incremented as a result
of this directive". -/
theorem session_reconnect_counterexample :
    (sessionReconnectObserved 0 twitchInit).1.reconnect.attempts ≠
      twitchInit.reconnect.attempts ∧
    (sessionReconnectObserved 0 twitchInit).1.reconnect.timeout ≠ none := by
  constructor
  · show (1 : ℕ) ≠ 0
    decide
  · intro h
    exact Option.some_ne_none _ h

/-- C10: the `twitchConnected` flag reported to a newly connected
subscriber in its welcome message becomes true only after at least one
event-category subscription succeeds — a socket `open` alone never sets
it — and every socket `close` resets it to false; in particular a
subscriber connecting after events with no successful subscription (e.g.
just an `open`) receives `twitchConnected = false` in its welcome object. -/
theorem push_connected_flag (evs : List PushEvent)
    (h : evs.all noSubscribeSuccess = true) :
    twitchConnectedAfter evs = false ∧
    (∀ b, twitchConnectedStep b PushEvent.sockClose = false) ∧
    (∀ b, twitchConnectedStep b PushEvent.sockOpen = b) ∧
    (welcomeAck (twitchConnectedAfter evs)).get "twitchConnected" =
      some (Json.bool false) := by
  have key : ∀ l : List PushEvent, l.all noSubscribeSuccess = true →
      ∀ b : Bool, b = false → l.foldl twitchConnectedStep b = false := by
    intro l
    induction l with
    | nil => intro _ b hb; simpa using hb
    | cons e es ih =>
      intro hall b hb
      rw [List.all_cons, Bool.and_eq_true] at hall
      refine ih hall.2 _ ?_
      subst hb
      cases e with
      | sockOpen => rfl
      | subscribeResults rs =>
        have : rs.count true = 0 := by
          have := hall.1
          simpa [noSubscribeSuccess] using this
        simp [twitchConnectedStep, this]
      | sockClose => rfl
      | keepalive => rfl
  have hflag : twitchConnectedAfter evs = false := key evs h false rfl
  refine ⟨hflag, fun b => rfl, fun b => rfl, ?_⟩
  rw [hflag]
  rfl

/-- Witness for `push_connected_flag`: the event sequence in which the push
socket has opened but no subscription outcome has arrived. -/
theorem push_connected_flag_witness :
    [PushEvent.sockOpen].all noSubscribeSuccess = true ∧
    (twitchConnectedAfter [PushEvent.sockOpen] = false ∧
     (∀ b, twitchConnectedStep b PushEvent.sockClose = false) ∧
     (∀ b, twitchConnectedStep b PushEvent.sockOpen = b) ∧
     (welcomeAck (twitchConnectedAfter [PushEvent.sockOpen])).get
        "twitchConnected" = some (Json.bool false)) :=
  ⟨rfl, push_connected_flag [PushEvent.sockOpen] rfl⟩

/-- C4 (amended): absence of the push-channel/chat-reader credentials
(`TWITCH_CLIENT_ID`, `TWITCH_ACCESS_TOKEN`) is fatal before any socket is
opened; account resolution is retried 3 times with linear backoff (sleeps
of 1000 ms then 2000 ms), fatal only after the 3rd attempt fails; but the
chat-sender credential (`BOT_ACCESS_TOKEN`) is NOT checked at startup —
its absence merely skips the bot socket while the process serves. -/
theorem startup_credentials_and_retry (env : Env) (result : ℕ → Option String) :
    ((truthyEnv env.clientId = false ∨ truthyEnv env.accessToken = false) →
      mainStartup env result = StartupOutcome.exitNoCredentials) ∧
    (truthyEnv env.clientId = true → truthyEnv env.accessToken = true →
     result 1 = none → result 2 = none → result 3 = none →
      mainStartup env result =
        StartupOutcome.exitUnresolvedAccount [1000, 2000]) ∧
    (truthyEnv env.clientId = true → truthyEnv env.accessToken = true →
     ∀ id, result 1 = some id →
      mainStartup env result =
        StartupOutcome.serving id (truthyEnv env.botAccessToken)) := by
  refine ⟨?_, ?_, ?_⟩
  · intro h
    unfold mainStartup
    rcases h with h | h <;> simp [h]
  · intro hc ha h1 h2 h3
    unfold mainStartup
    rw [hc, ha]
    simp only [Bool.not_true, Bool.or_self, Bool.false_eq_true, if_false]
    show (let r := getBroadcasterIdWithRetry result 3 1
          match r.1 with
          | none => StartupOutcome.exitUnresolvedAccount r.2
          | some id => StartupOutcome.serving id (truthyEnv env.botAccessToken)) =
      StartupOutcome.exitUnresolvedAccount [1000, 2000]
    have : getBroadcasterIdWithRetry result 3 1 = (none, [1000, 2000]) := by
      unfold getBroadcasterIdWithRetry
      rw [h1]
      simp only
      unfold getBroadcasterIdWithRetry
      rw [h2]
      simp only
      unfold getBroadcasterIdWithRetry
      rw [h3]
      rfl
    rw [this]
  · intro hc ha id h1
    unfold mainStartup
    rw [hc, ha]
    simp only [Bool.not_true, Bool.or_self, Bool.false_eq_true, if_false]
    have : getBroadcasterIdWithRetry result 3 1 = (some id, []) := by
      unfold getBroadcasterIdWithRetry
      rw [h1]
    rw [this]

/-- Witness for `startup_credentials_and_retry`: a missing client id exits
before any socket. -/
theorem startup_credentials_and_retry_witness :
    mainStartup envMissingClient (fun _ => some "123") =
      StartupOutcome.exitNoCredentials :=
  (startup_credentials_and_retry envMissingClient (fun _ => some "123")).1
    (Or.inl rfl)

/-- C4 counterexample: with the push-channel and chat-reader credentials
set but the chat-sender credential (`BOT_ACCESS_TOKEN`) absent, startup
does NOT exit — it proceeds to serving (opening sockets), merely skipping
the bot socket — refuting "if the authentication credential for any of the
three connection identities is absent ... the process exits before any
socket is opened". -/
theorem startup_counterexample :
    truthyEnv envNoBot.botAccessToken = false ∧
    mainStartup envNoBot (fun _ => some "123") =
      StartupOutcome.serving "123" false :=
  ⟨rfl, rfl⟩

/-- The raw tagged IRC line of the spec's parser test vector. -/
def c6RawLine : String :=
  "@badges=moderator/1;color=#FF0000;emotes=25:0-4 :user!user@user PRIVMSG #chan :Kappa hi"

/-- C6: evaluating the parser at the spec's test line.  The message, color,
badge and emote fields come out as the spec says, but the username is
"0-4 :user", not "user": the body regex `/:([^!]+)!.../` matches from the
leftmost colon of the whole line, which sits inside the `emotes=25:0-4`
tag, so the first capture group swallows "0-4 :user"; with no
`display-name` tag to override it, that becomes the username. -/
theorem parse_c6_line :
    parseIRCMessage c6RawLine "T" =
      some { type := "chat", username := "0-4 :user", message := "Kappa hi",
             color := some "#FF0000", badges := ["moderator"],
             emotes := [{ id := "25", start := some 0, stop := some 4 }],
             timestamp := "T" } := by
  rfl

/-- C9: the chat message handler never closes the connection on any line
(and, being total, never throws); a line that does not match the
chat-message shape — the parser returns `null` — produces zero broadcast
events. -/
theorem chat_line_parsing_safe (raw now : String) :
    (chatMessageHandler raw now).connectionClosed = false ∧
    (parseIRCMessage raw now = none →
      (chatMessageHandler raw now).broadcastEvents = []) := by
  constructor
  · unfold chatMessageHandler
    split
    · rfl
    · split
      · split <;> rfl
      · rfl
  · intro h
    unfold chatMessageHandler
    split
    · rfl
    · split
      · rw [h]
      · rfl

/-- Witness for `chat_line_parsing_safe`: a line containing "PRIVMSG" that
does not match the message shape is dropped with no broadcast and the
connection stays open. -/
theorem chat_line_parsing_safe_witness :
    parseIRCMessage "foo PRIVMSG bar" "T" = none ∧
    (chatMessageHandler "foo PRIVMSG bar" "T").connectionClosed = false ∧
    (chatMessageHandler "foo PRIVMSG bar" "T").broadcastEvents = [] :=
  ⟨rfl, (chat_line_parsing_safe "foo PRIVMSG bar" "T").1,
   (chat_line_parsing_safe "foo PRIVMSG bar" "T").2 rfl⟩

end ObsTwitch
